import Mathlib

/-!
Verification development for the daily_analysis repository.

The repository's two live modules are embedded shallowly:

* `src/src/market_analyzer.py` — `MarketAnalyzer`: market-snapshot assembly
  (`get_market_overview` and its three fetch steps), the akshare retry wrapper
  `_call_akshare_with_retry`, report generation `generate_market_review` and the
  template fallback `_generate_template_review`.
* `src/analyzer.py` — `GeminiAnalyzer`: construction-time provider failover
  (`__init__` / `_init_model` / `_init_openai_fallback` / `is_available`) and the
  OpenAI-compatible retry wrapper `_call_openai_api`.

Python floats are modelled as `ℚ` (all numeric literals appearing in the relevant
comparisons are decimal and far from representation boundaries, so every comparison
made by the source has the same truth value over `ℚ`).  Exceptions are modelled with
`Except`: a function whose Python counterpart may raise returns `Except E A`, and
external calls are modelled as attempt-indexed functions `Nat → Except E A` supplied
as inputs.  Effect traces (number of calls, sleep durations, log lines) are recorded
explicitly in trace structures so that the retry claims can be stated.

The root-level `market_analyzer.py` is a stale near-duplicate: its
`_generate_template_review` is dedented to module level while the following method
`run_daily_review` is still indented, so the file raises `IndentationError` at import
and defines nothing; the live module is the nested `src/market_analyzer.py`
(shown under `src/src/`).  The legacy template body it carries is embedded separately
as `generateTemplateReviewLegacy` where a claim refers to it.
-/

namespace DailyAnalysis

/-! ## Data model (`market_analyzer.py` dataclasses) -/

/-- Embeds the `MarketIndex` dataclass.  `open'` stands for the Python field `open`
(a Lean keyword).  All numeric fields default to `0` as in the source. -/
structure MarketIndex where
  code : String
  name : String
  current : ℚ := 0
  change : ℚ := 0
  change_pct : ℚ := 0
  open' : ℚ := 0
  high : ℚ := 0
  low : ℚ := 0
  prev_close : ℚ := 0
  volume : ℚ := 0
  amount : ℚ := 0
  amplitude : ℚ := 0

/-- Embeds the sector dictionaries `{'name': ..., 'change_pct': ...}` stored in
`top_sectors` / `bottom_sectors`. -/
structure Sector where
  name : String
  change_pct : ℚ

/-- Embeds the `MarketOverview` dataclass with its default field values. -/
structure MarketOverview where
  date : String
  indices : List MarketIndex := []
  up_count : Nat := 0
  down_count : Nat := 0
  flat_count : Nat := 0
  limit_up_count : Nat := 0
  limit_down_count : Nat := 0
  total_amount : ℚ := 0
  north_flow : ℚ := 0
  top_sectors : List Sector := []
  bottom_sectors : List Sector := []

/-! ## `MarketAnalyzer._call_akshare_with_retry`

```python
def _call_akshare_with_retry(self, fn, name: str, attempts: int = 9):
    last_error: Optional[Exception] = None
    for attempt in range(1, attempts + 1):
        try:
            return fn()
        except Exception as e:
            last_error = e
            logger.warning(f"... (attempt {attempt}/{attempts}): {e}")
            if attempt < attempts:
                time.sleep(min(2 ** attempt, 5))
    logger.error(f"... 最终失败: {last_error}")
    return None
```

The external call `fn` is modelled as an attempt-indexed `Nat → Except E A`, the
loop `for attempt in range(1, attempts + 1)` as structural recursion over
`List.range' 1 attempts`. -/

/-- Result and effect trace of one run of `_call_akshare_with_retry`.
`result = .ok (some a)` is the early `return fn()`, `.ok none` the final
`return None`; an uncaught exception would be `.error _`, which the source never
produces because the loop body catches every exception.  `calls` counts invocations
of `fn`, `sleeps` lists the `time.sleep` durations in order, `warnings` the
per-attempt `logger.warning` payloads `(attempt, error)`, and `finalError` the
`last_error` in the terminal `logger.error` line (`none` when the loop returned
early, so that line never ran). -/
structure AkTrace (E A : Type) where
  result : Except E (Option A)
  calls : Nat
  sleeps : List Nat
  warnings : List (Nat × E)
  finalError : Option E

/-- The retry loop body, iterating over the remaining attempt indices and carrying
`last_error`. -/
def akshareLoop (fn : Nat → Except E A) (attempts : Nat) :
    List Nat → Option E → AkTrace E A
  | [], lastError =>
    { result := .ok none, calls := 0, sleeps := [], warnings := [],
      finalError := lastError }
  | attempt :: rest, _ =>
    match fn attempt with
    | .ok a =>
      { result := .ok (some a), calls := 1, sleeps := [], warnings := [],
        finalError := none }
    | .error e =>
      let r := akshareLoop fn attempts rest (some e)
      { result := r.result
        calls := r.calls + 1
        sleeps := (if attempt < attempts then [min (2 ^ attempt) 5] else []) ++ r.sleeps
        warnings := (attempt, e) :: r.warnings
        finalError := r.finalError }

/-- Embeds `MarketAnalyzer._call_akshare_with_retry`. -/
def callAkshareWithRetry (fn : Nat → Except E A) (attempts : Nat) : AkTrace E A :=
  akshareLoop fn attempts (List.range' 1 attempts) none

/-- The `Option` value the callers of `_call_akshare_with_retry` observe
(`df` in `_get_main_indices` etc.): the wrapper's normal return value. -/
def retryValue (fn : Nat → Except E A) (attempts : Nat) : Option A :=
  match (callAkshareWithRetry fn attempts).result with
  | .ok v => v
  | .error _ => none

/-- The operation raises on every invocation. -/
def alwaysRaises (fn : Nat → Except E A) : Prop :=
  ∀ k, ∃ e, fn k = Except.error e

/-! ## `GeminiAnalyzer._call_openai_api`

```python
def _call_openai_api(self, prompt, generation_config) -> str:
    max_retries = config.gemini_max_retries
    base_delay = config.gemini_retry_delay
    for attempt in range(max_retries):
        try:
            if attempt > 0:
                delay = base_delay * (2 ** (attempt - 1))
                delay = min(delay, 60)
                time.sleep(delay)
            response = self._openai_client.chat.completions.create(...)
            if response and response.choices and response.choices[0].message.content:
                return response.choices[0].message.content
            else:
                raise ValueError("OpenAI API 返回空响应")
        except Exception as e:
            ...logging...
            if attempt == max_retries - 1:
                raise
    raise Exception("OpenAI API 调用失败，已达最大重试次数")
```

The provider call is modelled as `call : Nat → Except E (Option String)`:
`.error e` is an exception from the client, `.ok none` a response whose
`choices[0].message.content` is falsy (`None`), and `.ok (some c)` a content string
(`c = ""` is also falsy in Python and raises the `ValueError`). -/

/-- An error escaping `_call_openai_api`: the client exception or `ValueError`
re-raised by the bare `raise`, or the terminal `Exception` after the loop (reachable
only when `max_retries = 0`). -/
inductive GenError (E : Type) where
  | api (e : E)
  | emptyResponse
  | exhausted

/-- Result and effect trace of one run of `_call_openai_api`: the returned string or
escaped error, the number of provider calls, and the `time.sleep` durations. -/
structure GenTrace (E : Type) where
  result : Except (GenError E) String
  calls : Nat
  sleeps : List ℚ

/-- One provider-call outcome fails (raises, or returns empty/`None` content). -/
def genCallFails (r : Except E (Option String)) : Prop :=
  match r with
  | .ok (some c) => c = ""
  | .ok none => True
  | .error _ => True

/-- The loop body of `_call_openai_api`, iterating over the remaining 0-based
attempt indices. -/
def openaiLoop (call : Nat → Except E (Option String)) (maxRetries : Nat) (base : ℚ) :
    List Nat → GenTrace E
  | [] => { result := .error .exhausted, calls := 0, sleeps := [] }
  | attempt :: rest =>
    let slp : List ℚ := if 0 < attempt then [min (base * 2 ^ (attempt - 1)) 60] else []
    let outcome : Except (GenError E) String :=
      match call attempt with
      | .ok (some c) => if c = "" then .error .emptyResponse else .ok c
      | .ok none => .error .emptyResponse
      | .error e => .error (.api e)
    match outcome with
    | .ok c => { result := .ok c, calls := 1, sleeps := slp }
    | .error err =>
      if attempt = maxRetries - 1 then
        { result := .error err, calls := 1, sleeps := slp }
      else
        let r := openaiLoop call maxRetries base rest
        { result := r.result, calls := r.calls + 1, sleeps := slp ++ r.sleeps }

/-- Embeds `GeminiAnalyzer._call_openai_api`; `maxRetries` is
`config.gemini_max_retries` and `base` is `config.gemini_retry_delay`. -/
def callOpenaiApi (call : Nat → Except E (Option String)) (maxRetries : Nat)
    (base : ℚ) : GenTrace E :=
  openaiLoop call maxRetries base (List.range maxRetries)

/-- The provider call fails on every invocation. -/
def alwaysFailsGen (call : Nat → Except E (Option String)) : Prop :=
  ∀ k, genCallFails (call k)

/-! ## Retry lemmas -/

theorem akshareLoop_fail {E A : Type} (fn : Nat → Except E A) (attempts : Nat) :
    ∀ (l : List Nat) (lastErr : Option E), (∀ k ∈ l, ∃ e, fn k = Except.error e) →
      (akshareLoop fn attempts l lastErr).calls = l.length ∧
      (akshareLoop fn attempts l lastErr).result = Except.ok none
  | [], _, _ => ⟨rfl, rfl⟩
  | attempt :: rest, lastErr, h => by
    obtain ⟨e, he⟩ := h attempt (List.mem_cons_self ..)
    have ih := akshareLoop_fail fn attempts rest (some e)
      (fun k hk => h k (List.mem_cons_of_mem _ hk))
    simp only [akshareLoop, he, List.length_cons]
    exact ⟨by simp [ih.1], ih.2⟩

theorem akshareLoop_calls_pos {E A : Type} (fn : Nat → Except E A) (attempts : Nat)
    (a : Nat) (l : List Nat) (lastErr : Option E) :
    1 ≤ (akshareLoop fn attempts (a :: l) lastErr).calls := by
  cases hfa : fn a <;> simp [akshareLoop, hfa]

theorem akshareLoop_sleeps {E A : Type} (fn : Nat → Except E A) (attempts : Nat) :
    ∀ (n a : Nat) (lastErr : Option E), a + n = attempts + 1 →
      (akshareLoop fn attempts (List.range' a n) lastErr).sleeps =
        (List.range' a ((akshareLoop fn attempts (List.range' a n) lastErr).calls - 1)).map
          (fun k => min (2 ^ k) 5) := by
  intro n
  induction n with
  | zero => intro a lastErr _; simp [akshareLoop]
  | succ m ih =>
    intro a lastErr hrange
    rw [List.range'_succ]
    cases hfa : fn a with
    | ok v => simp [akshareLoop, hfa]
    | error e =>
      simp only [akshareLoop, hfa]
      cases m with
      | zero =>
        have ha : ¬ a < attempts := by omega
        simp [akshareLoop, ha]
      | succ m' =>
        have ha : a < attempts := by omega
        have ih' := ih (a + 1) (some e) (by omega)
        have hpos : 1 ≤ (akshareLoop fn attempts (List.range' (a + 1) (m' + 1)) (some e)).calls := by
          rw [List.range'_succ]
          exact akshareLoop_calls_pos fn attempts _ _ _
        set r := akshareLoop fn attempts (List.range' (a + 1) (m' + 1)) (some e) with hr
        have hcalls : r.calls + 1 - 1 = (r.calls - 1) + 1 := by omega
        simp only [ha, if_true, hcalls, List.range'_succ, List.map_cons]
        rw [ih']
        simp

theorem akshareLoop_finalError {E A : Type} (fn : Nat → Except E A) (attempts : Nat) :
    ∀ (n a : Nat) (lastErr : Option E) (e : E), 1 ≤ n →
      (∀ k ∈ List.range' a n, ∃ e', fn k = Except.error e') →
      fn (a + n - 1) = Except.error e →
      (akshareLoop fn attempts (List.range' a n) lastErr).finalError = some e := by
  intro n
  induction n with
  | zero => omega
  | succ m ih =>
    intro a lastErr e _ hfail hlast
    rw [List.range'_succ]
    obtain ⟨e0, he0⟩ := hfail a (by rw [List.range'_succ]; exact List.mem_cons_self ..)
    cases m with
    | zero =>
      have : a + 1 - 1 = a := by omega
      rw [this] at hlast
      rw [hlast] at he0
      cases he0
      simp [akshareLoop, hlast]
    | succ m' =>
      have hlast' : fn (a + 1 + (m' + 1) - 1) = Except.error e := by
        have : a + 1 + (m' + 1) - 1 = a + (m' + 1 + 1) - 1 := by omega
        rw [this]; exact hlast
      have ih' := ih (a + 1) (some e0) e (by omega)
        (fun k hk => hfail k (by rw [List.range'_succ]; exact List.mem_cons_of_mem _ hk)) hlast'
      simp only [akshareLoop, he0]
      exact ih'

theorem openaiLoop_fail {E : Type} (call : Nat → Except E (Option String))
    (maxRetries : Nat) (base : ℚ) (hcall : alwaysFailsGen call) :
    ∀ (n a : Nat), a + n = maxRetries →
      (openaiLoop call maxRetries base (List.range' a n)).calls = n ∧
      ∃ err, (openaiLoop call maxRetries base (List.range' a n)).result =
        Except.error err := by
  intro n
  induction n with
  | zero => intro a _; exact ⟨rfl, ⟨.exhausted, rfl⟩⟩
  | succ m ih =>
    intro a hrange
    rw [List.range'_succ]
    have hfails := hcall a
    have houtcome : ∃ err, (match call a with
        | .ok (some c) => if c = "" then Except.error (GenError.emptyResponse (E := E))
            else Except.ok c
        | .ok none => Except.error .emptyResponse
        | .error e => Except.error (.api e)) = Except.error err := by
      cases hca : call a with
      | ok v =>
        cases v with
        | some c =>
          rw [hca] at hfails
          simp only [genCallFails] at hfails
          exact ⟨.emptyResponse, by simp [hfails]⟩
        | none => exact ⟨.emptyResponse, rfl⟩
      | error e => exact ⟨.api e, rfl⟩
    obtain ⟨err, herr⟩ := houtcome
    by_cases hif : a = maxRetries - 1
    · have hm : m = 0 := by omega
      subst hm
      subst hif
      simp only [openaiLoop, herr, if_pos rfl]
      exact ⟨rfl, ⟨err, rfl⟩⟩
    · have ih' := ih (a + 1) (by omega)
      simp only [openaiLoop, herr, if_neg hif]
      exact ⟨by simp [ih'.1], ih'.2⟩

theorem openaiLoop_sleeps {E : Type} (call : Nat → Except E (Option String))
    (maxRetries : Nat) (base : ℚ) :
    ∀ (n a : Nat),
      (openaiLoop call maxRetries base (List.range' a n)).sleeps =
        ((List.range' a ((openaiLoop call maxRetries base (List.range' a n)).calls)).filter
            (fun k => decide (0 < k))).map
          (fun k => min (base * 2 ^ (k - 1)) 60) := by
  intro n
  induction n with
  | zero => intro a; simp [openaiLoop]
  | succ m ih =>
    intro a
    rw [List.range'_succ]
    rcases houtcome : (match call a with
        | .ok (some c) => if c = "" then Except.error (GenError.emptyResponse (E := E))
            else Except.ok c
        | .ok none => Except.error .emptyResponse
        | .error e => Except.error (.api e)) with c | err
    case ok =>
      simp only [openaiLoop, houtcome]
      by_cases ha : 0 < a <;> simp [List.range'_succ, List.range'_zero, ha]
    case error =>
      by_cases hif : a = maxRetries - 1
      · subst hif
        simp only [openaiLoop, houtcome, if_pos rfl]
        by_cases ha : 0 < maxRetries - 1 <;> simp [List.range'_succ, List.range'_zero, ha]
      · have ih' := ih (a + 1)
        simp only [openaiLoop, houtcome, if_neg hif]
        by_cases ha : 0 < a <;>
          simp [List.range'_succ, ha, ih']

/-! ## Claims C2, C3, C4 -/

/-- C2: for an operation that fails on every invocation, the resilient-call retry
wrapper invokes the operation exactly `max_attempts` times — never more, never
fewer — and then signals failure.  Data-fetch wrapper `_call_akshare_with_retry`
(parameter `attempts`): exactly `attempts` calls, then returns `None`.
Generation-path wrapper `_call_openai_api` (`config.gemini_max_retries` iterations):
exactly `maxRetries` calls, then raises. -/
theorem retry_bound {E A E' : Type} (fn : Nat → Except E A) (attempts : Nat)
    (call : Nat → Except E' (Option String)) (maxRetries : Nat) (base : ℚ)
    (hfn : alwaysRaises fn) (hcall : alwaysFailsGen call) :
    (callAkshareWithRetry fn attempts).calls = attempts ∧
    (callAkshareWithRetry fn attempts).result = Except.ok none ∧
    (callOpenaiApi call maxRetries base).calls = maxRetries ∧
    ∃ err, (callOpenaiApi call maxRetries base).result = Except.error err := by
  have h1 := akshareLoop_fail fn attempts (List.range' 1 attempts) none
    (fun k _ => hfn k)
  have h2 := openaiLoop_fail call maxRetries base hcall maxRetries 0 (by omega)
  refine ⟨?_, h1.2, ?_, ?_⟩
  · rw [callAkshareWithRetry, h1.1, List.length_range']
  · rw [callOpenaiApi, List.range_eq_range']
    exact h2.1
  · rw [callOpenaiApi, List.range_eq_range']
    exact h2.2

/-- A concrete operation that raises on every attempt (attempt `k` raises error `k`). -/
def failFn : Nat → Except Nat Unit := fun k => Except.error k

/-- A concrete provider call that raises on every attempt. -/
def failCall : Nat → Except Nat (Option String) := fun _ => Except.error 7

/-- Witness for C2 at `attempts = 3`, `maxRetries = 4`, `base = 5`. -/
theorem retry_bound_witness :
    alwaysRaises failFn ∧ alwaysFailsGen failCall ∧
    ((callAkshareWithRetry failFn 3).calls = 3 ∧
      (callAkshareWithRetry failFn 3).result = Except.ok none ∧
      (callOpenaiApi failCall 4 5).calls = 4 ∧
      ∃ err, (callOpenaiApi failCall 4 5).result = Except.error err) :=
  ⟨fun k => ⟨k, rfl⟩, fun _ => trivial,
    retry_bound failFn 3 failCall 4 5 (fun k => ⟨k, rfl⟩) (fun _ => trivial)⟩

/-- C3: in every retry sequence, the first attempt is made with no preceding sleep,
and the sleep before retry attempt `k` (for `k` ranging over `2 .. calls`) is
`min (base * 2 ^ (k - 2)) cap`: the data-fetch wrapper sleeps
`min(2 ** attempt, 5) = min(2 * 2^(k-2), 5)` (base 2, cap 5), and the generation-path
wrapper sleeps `min(base_delay * 2**(attempt-1), 60)` (cap 60).  The sleep list has
exactly `calls - 1` entries, entry `k - 2` belonging to attempt `k`. -/
theorem backoff_growth {E A E' : Type} (fn : Nat → Except E A) (attempts : Nat)
    (call : Nat → Except E' (Option String)) (maxRetries : Nat) (base : ℚ) :
    (callAkshareWithRetry fn attempts).sleeps =
      (List.range' 2 ((callAkshareWithRetry fn attempts).calls - 1)).map
        (fun k => min (2 * 2 ^ (k - 2)) 5) ∧
    (callOpenaiApi call maxRetries base).sleeps =
      (List.range' 2 ((callOpenaiApi call maxRetries base).calls - 1)).map
        (fun k => min (base * 2 ^ (k - 2)) 60) := by
  constructor
  · have h := akshareLoop_sleeps fn attempts attempts 1 none (by omega)
    rw [callAkshareWithRetry, h]
    rw [List.range'_eq_map_range 1, List.range'_eq_map_range 2,
      List.map_map, List.map_map]
    apply List.map_congr_left
    intro i _
    simp only [Function.comp_apply]
    congr 1
    have h2 : 2 + i - 2 = i := by omega
    rw [h2, pow_add, pow_one]
  · have h := openaiLoop_sleeps call maxRetries base maxRetries 0
    rw [callOpenaiApi, List.range_eq_range', h]
    have hfilter : ∀ c : Nat,
        (List.range' 0 c).filter (fun k => decide (0 < k)) = List.range' 1 (c - 1) := by
      intro c
      cases c with
      | zero => simp
      | succ m =>
        rw [List.range'_succ]
        simp only [List.filter_cons, decide_eq_true_eq]
        rw [if_neg (by omega), List.filter_eq_self.mpr]
        · simp
        · intro a ha
          obtain ⟨i, _, hi⟩ := List.mem_range'.mp ha
          simp only [decide_eq_true_eq]
          omega
    rw [hfilter]
    rw [List.range'_eq_map_range 1, List.range'_eq_map_range 2,
      List.map_map, List.map_map]
    apply List.map_congr_left
    intro i _
    simp only [Function.comp_apply]
    have e1 : 1 + i - 1 = i := by omega
    have e2 : 2 + i - 2 = i := by omega
    rw [e1, e2]

/-- C4 counterexample: with an operation raising on every attempt (`failFn`, where
attempt `k` raises error `k`) and `attempts = 2`, the data-fetch wrapper does not
propagate the last error to its caller: it returns normally with `None`, so no error
value reaches the caller. -/
theorem retry_no_propagation_cex :
    (callAkshareWithRetry failFn 2).result = Except.ok none ∧
    ∀ e, (callAkshareWithRetry failFn 2).result ≠ Except.error e := by
  refine ⟨rfl, ?_⟩
  intro e h
  rw [show (callAkshareWithRetry failFn 2).result = Except.ok none from rfl] at h
  cases h

/-- C4 amended: when the data-fetch wrapper `_call_akshare_with_retry` exhausts all
attempts (every attempt raised), it does not re-raise: it logs the last attempt's
error in its terminal `logger.error` line and returns `None` to the caller. -/
theorem retry_exhaustion_returns_none {E A : Type} (fn : Nat → Except E A)
    (attempts : Nat) (e : E) (hfn : alwaysRaises fn) (h1 : 1 ≤ attempts)
    (hlast : fn attempts = Except.error e) :
    (callAkshareWithRetry fn attempts).result = Except.ok none ∧
    (callAkshareWithRetry fn attempts).finalError = some e := by
  constructor
  · exact (akshareLoop_fail fn attempts (List.range' 1 attempts) none (fun k _ => hfn k)).2
  · exact akshareLoop_finalError fn attempts attempts 1 none e h1
      (fun k _ => hfn k) (by rwa [show 1 + attempts - 1 = attempts from by omega])

/-- Witness for the amended C4 at `fn = failFn`, `attempts = 2`. -/
theorem retry_exhaustion_returns_none_witness :
    (alwaysRaises failFn ∧ 1 ≤ 2 ∧ failFn 2 = Except.error 2) ∧
    ((callAkshareWithRetry failFn 2).result = Except.ok none ∧
      (callAkshareWithRetry failFn 2).finalError = some 2) :=
  ⟨⟨fun k => ⟨k, rfl⟩, by omega, rfl⟩,
    retry_exhaustion_returns_none failFn 2 2 (fun k => ⟨k, rfl⟩) (by omega) rfl⟩

/-! ## `MarketAnalyzer._get_main_indices` -/

/-- A row of the index-quote dataframe (`ak.stock_zh_index_spot_sina`): the 代码
column plus a tolerant lookup for the numeric columns.  `fields col = none` models a
missing column or a falsy cell, which `float(row.get(col, 0) or 0)` turns into `0`. -/
structure SinaRow where
  code : String
  fields : String → Option ℚ

/-- `float(row.get(col, 0) or 0)`. -/
def rowGet (r : SinaRow) (col : String) : ℚ :=
  (r.fields col).getD 0

/-- The `MAIN_INDICES` mapping, in its (insertion-ordered) iteration order. -/
def MAIN_INDICES : List (String × String) :=
  [("sh000001", "上证指数"),
   ("sz399001", "深证成指"),
   ("sz399006", "创业板指"),
   ("sh000688", "科创50"),
   ("sh000016", "上证50"),
   ("sh000300", "沪深300")]

/-- `row = df[df['代码'] == code]`, falling back on
`df[df['代码'].str.contains(code)]` when empty, then `row.iloc[0]`
(the pattern `code` holds no regex metacharacter, so `str.contains` is a plain
substring test). -/
def findIndexRow (rows : List SinaRow) (code : String) : Option SinaRow :=
  match rows.filter (fun r => r.code == code) with
  | [] => (rows.filter (fun r => decide (List.IsInfix code.data r.code.data))).head?
  | r :: _ => some r

/-- The `MarketIndex(...)` construction for one matched row, including the amplitude
computation guarded by `prev_close > 0`. -/
def buildMarketIndex (code name : String) (r : SinaRow) : MarketIndex :=
  let idx : MarketIndex :=
    { code := code
      name := name
      current := rowGet r "最新价"
      change := rowGet r "涨跌额"
      change_pct := rowGet r "涨跌幅"
      open' := rowGet r "今开"
      high := rowGet r "最高"
      low := rowGet r "最低"
      prev_close := rowGet r "昨收"
      volume := rowGet r "成交量"
      amount := rowGet r "成交额" }
  if idx.prev_close > 0 then
    { idx with amplitude := (idx.high - idx.low) / idx.prev_close * 100 }
  else idx

/-- Embeds `_get_main_indices`, with the dataframe produced by the retry wrapper as
input (`none` models the wrapper returning `None`; an empty row list models
`df.empty`). -/
def getMainIndices (df : Option (List SinaRow)) : List MarketIndex :=
  match df with
  | none => []
  | some rows =>
    if rows.isEmpty then []
    else MAIN_INDICES.filterMap (fun p =>
      (findIndexRow rows p.1).map (buildMarketIndex p.1 p.2))

/-! ## `MarketAnalyzer._get_market_statistics` -/

/-- A row of the all-A-share quote dataframe.  `change_pct` and `amount` are the
涨跌幅 and 成交额 cells after `pd.to_numeric(..., errors='coerce')`: `none` models
NaN, which every pandas comparison excludes and `.sum()` skips. -/
structure StockRow where
  change_pct : Option ℚ := none
  amount : Option ℚ := none

/-- The all-A-share dataframe: rows plus presence of the two used columns. -/
structure StockTable where
  rows : List StockRow
  hasChangeCol : Bool := true
  hasAmountCol : Bool := true

/-- `len(df[df['涨跌幅'] <pred>])`: rows whose (non-NaN) 涨跌幅 satisfies `p`. -/
def countBy (rows : List StockRow) (p : ℚ → Bool) : Nat :=
  (rows.filter (fun r =>
    match r.change_pct with
    | some v => p v
    | none => false)).length

/-- Embeds `_get_market_statistics` as a function from the incoming overview and the
fetched dataframe (`none` models the retry wrapper returning `None`) to the updated
overview. -/
def getMarketStatistics (overview : MarketOverview) (df : Option StockTable) :
    MarketOverview :=
  match df with
  | none => overview
  | some t =>
    if t.rows.isEmpty then overview
    else
      let o1 :=
        if t.hasChangeCol then
          { overview with
            up_count := countBy t.rows (fun v => decide (v > 0))
            down_count := countBy t.rows (fun v => decide (v < 0))
            flat_count := countBy t.rows (fun v => decide (v = 0))
            limit_up_count := countBy t.rows (fun v => decide (v ≥ 9.9))
            limit_down_count := countBy t.rows (fun v => decide (v ≤ -9.9)) }
        else overview
      if t.hasAmountCol then
        { o1 with total_amount := (t.rows.filterMap (fun r => r.amount)).sum / 100000000 }
      else o1

/-! ## `MarketAnalyzer._get_sector_rankings` -/

/-- A row of the industry-board dataframe (`ak.stock_board_industry_name_em`):
板块名称 plus 涨跌幅 after `pd.to_numeric(..., errors='coerce')` (`none` = NaN). -/
structure SectorRow where
  name : String
  change_pct : Option ℚ

/-- The industry-board dataframe: rows plus presence of the 涨跌幅 column. -/
structure SectorTable where
  rows : List SectorRow
  hasChangeCol : Bool := true

/-- `df.dropna(subset=['涨跌幅'])` followed by building the
`{'name': ..., 'change_pct': ...}` dicts. -/
def dropnaSectors (rows : List SectorRow) : List Sector :=
  rows.filterMap (fun r => r.change_pct.map (fun v => ⟨r.name, v⟩))

/-- `df.nlargest(5, '涨跌幅')`: the first 5 rows of a stable descending sort (pandas
`keep='first'` prefers earlier rows on ties, as a stable sort does). -/
def nlargest5 (l : List Sector) : List Sector :=
  (l.mergeSort (fun a b => decide (b.change_pct ≤ a.change_pct))).take 5

/-- `df.nsmallest(5, '涨跌幅')`: the first 5 rows of a stable ascending sort. -/
def nsmallest5 (l : List Sector) : List Sector :=
  (l.mergeSort (fun a b => decide (a.change_pct ≤ b.change_pct))).take 5

/-- Embeds `_get_sector_rankings` as a function from the incoming overview and the
fetched dataframe to the updated overview. -/
def getSectorRankings (overview : MarketOverview) (df : Option SectorTable) :
    MarketOverview :=
  match df with
  | none => overview
  | some t =>
    if t.rows.isEmpty then overview
    else if t.hasChangeCol then
      let cleaned := dropnaSectors t.rows
      { overview with
        top_sectors := nlargest5 cleaned
        bottom_sectors := nsmallest5 cleaned }
    else overview

/-! ## `MarketAnalyzer.get_market_overview`

Each fetch step receives the `Option` dataframe produced by running its external
call through `_call_akshare_with_retry` with `attempts=9` (the `src/src` module's
call sites). -/

/-- Embeds `get_market_overview`: the three independent best-effort steps applied in
order to a fresh `MarketOverview(date=today)`. -/
def getMarketOverview {E₁ E₂ E₃ : Type} (today : String)
    (idxFetch : Nat → Except E₁ (List SinaRow))
    (statFetch : Nat → Except E₂ StockTable)
    (sectorFetch : Nat → Except E₃ SectorTable) : MarketOverview :=
  let overview : MarketOverview := { date := today }
  let overview := { overview with indices := getMainIndices (retryValue idxFetch 9) }
  let overview := getMarketStatistics overview (retryValue statFetch 9)
  getSectorRankings overview (retryValue sectorFetch 9)

/-! ## Claim C8 -/

/-- Rows carrying the change_pct values `[10.0, -9.95, 0.0, 5.0, -11]` of the spec's
breadth example. -/
def breadthRows : List StockRow :=
  [{ change_pct := some 10 }, { change_pct := some (-9.95) },
   { change_pct := some 0 }, { change_pct := some 5 },
   { change_pct := some (-11) }]

theorem countBy_mono (p q : ℚ → Bool) (h : ∀ v, p v = true → q v = true) :
    ∀ rows : List StockRow, countBy rows p ≤ countBy rows q := by
  intro rows
  induction rows with
  | nil => simp [countBy]
  | cons r rest ih =>
    simp only [countBy] at ih ⊢
    rcases hr : r.change_pct with _ | v
    · simpa [List.filter_cons, hr] using ih
    · cases hp : p v with
      | false =>
        cases hq : q v with
        | false => simpa [List.filter_cons, hr, hp, hq] using ih
        | true =>
          simp only [List.filter_cons, hr, hp, hq, Bool.false_eq_true, if_false,
            if_true, List.length_cons]
          omega
      | true =>
        have hq := h v hp
        simp only [List.filter_cons, hr, hp, hq, if_true, List.length_cons]
        omega

/-- C8: breadth classification counts rows by the sign of 涨跌幅 (`>0` up, `<0` down,
`=0` flat) with inclusive limit thresholds `≥ 9.9` / `≤ -9.9`, and every
limit-up/limit-down row is also counted in up/down respectively; on the example
values `[10.0, -9.95, 0.0, 5.0, -11]` the counts are `up=2, down=2, flat=1,
limit_up=1, limit_down=2`. -/
theorem breadth_classification :
    ((getMarketStatistics { date := "" } (some { rows := breadthRows })).up_count = 2 ∧
     (getMarketStatistics { date := "" } (some { rows := breadthRows })).down_count = 2 ∧
     (getMarketStatistics { date := "" } (some { rows := breadthRows })).flat_count = 1 ∧
     (getMarketStatistics { date := "" } (some { rows := breadthRows })).limit_up_count = 1 ∧
     (getMarketStatistics { date := "" } (some { rows := breadthRows })).limit_down_count = 2) ∧
    (∀ rows : List StockRow,
      countBy rows (fun v => decide (v ≤ -9.9)) ≤ countBy rows (fun v => decide (v < 0)) ∧
      countBy rows (fun v => decide (v ≥ 9.9)) ≤ countBy rows (fun v => decide (v > 0))) := by
  constructor
  · refine ⟨?_, ?_, ?_, ?_, ?_⟩ <;>
      norm_num [getMarketStatistics, countBy, breadthRows, List.filter_cons]
  · intro rows
    constructor
    · apply countBy_mono
      intro v hv
      simp only [decide_eq_true_eq] at *
      linarith
    · apply countBy_mono
      intro v hv
      simp only [decide_eq_true_eq] at *
      linarith

/-! ## Claim C9 -/

theorem nlargest5_spec (l : List Sector) (h5 : 5 ≤ l.length)
    (hdist : l.Pairwise (fun a b => a.change_pct ≠ b.change_pct)) :
    (nlargest5 l).length = 5 ∧
    (nlargest5 l).Pairwise (fun a b => b.change_pct < a.change_pct) ∧
    ∃ rest, l.Perm (nlargest5 l ++ rest) ∧
      ∀ x ∈ nlargest5 l, ∀ y ∈ rest, y.change_pct < x.change_pct := by
  have htrans : ∀ a b c : Sector, (fun a b : Sector => decide (b.change_pct ≤ a.change_pct)) a b →
      (fun a b : Sector => decide (b.change_pct ≤ a.change_pct)) b c →
      (fun a b : Sector => decide (b.change_pct ≤ a.change_pct)) a c := by
    intro a b c hab hbc
    simp only [decide_eq_true_eq] at *
    exact le_trans hbc hab
  have htotal : ∀ a b : Sector, (fun a b : Sector => decide (b.change_pct ≤ a.change_pct)) a b ||
      (fun a b : Sector => decide (b.change_pct ≤ a.change_pct)) b a := by
    intro a b
    simp only [Bool.or_eq_true, decide_eq_true_eq]
    exact le_total _ _
  have hsorted := List.sorted_mergeSort htrans htotal l
  have hperm := List.mergeSort_perm l (fun a b : Sector => decide (b.change_pct ≤ a.change_pct))
  have hdistS : (l.mergeSort (fun a b : Sector => decide (b.change_pct ≤ a.change_pct))).Pairwise
      (fun a b => a.change_pct ≠ b.change_pct) :=
    (hperm.pairwise_iff (fun h => Ne.symm h)).mpr hdist
  have hstrict : (l.mergeSort (fun a b : Sector => decide (b.change_pct ≤ a.change_pct))).Pairwise
      (fun a b => b.change_pct < a.change_pct) := by
    refine (hsorted.and hdistS).imp ?_
    intro a b hab
    have h1 : b.change_pct ≤ a.change_pct := by
      have := hab.1
      simpa using this
    exact lt_of_le_of_ne h1 (Ne.symm hab.2)
  have hsplit : l.mergeSort (fun a b : Sector => decide (b.change_pct ≤ a.change_pct)) =
      nlargest5 l ++ (l.mergeSort (fun a b : Sector => decide (b.change_pct ≤ a.change_pct))).drop 5 := by
    rw [nlargest5]
    exact (List.take_append_drop 5 _).symm
  refine ⟨?_, ?_, ⟨(l.mergeSort (fun a b : Sector => decide (b.change_pct ≤ a.change_pct))).drop 5, ?_, ?_⟩⟩
  · rw [nlargest5, List.length_take, List.length_mergeSort]
    omega
  · exact hstrict.sublist (by rw [nlargest5]; exact List.take_sublist _ _)
  · rw [← hsplit]
    exact hperm.symm
  · exact (List.pairwise_append.mp (hsplit ▸ hstrict)).2.2

theorem nsmallest5_spec (l : List Sector) (h5 : 5 ≤ l.length)
    (hdist : l.Pairwise (fun a b => a.change_pct ≠ b.change_pct)) :
    (nsmallest5 l).length = 5 ∧
    (nsmallest5 l).Pairwise (fun a b => a.change_pct < b.change_pct) ∧
    ∃ rest, l.Perm (nsmallest5 l ++ rest) ∧
      ∀ x ∈ nsmallest5 l, ∀ y ∈ rest, x.change_pct < y.change_pct := by
  have htrans : ∀ a b c : Sector, (fun a b : Sector => decide (a.change_pct ≤ b.change_pct)) a b →
      (fun a b : Sector => decide (a.change_pct ≤ b.change_pct)) b c →
      (fun a b : Sector => decide (a.change_pct ≤ b.change_pct)) a c := by
    intro a b c hab hbc
    simp only [decide_eq_true_eq] at *
    exact le_trans hab hbc
  have htotal : ∀ a b : Sector, (fun a b : Sector => decide (a.change_pct ≤ b.change_pct)) a b ||
      (fun a b : Sector => decide (a.change_pct ≤ b.change_pct)) b a := by
    intro a b
    simp only [Bool.or_eq_true, decide_eq_true_eq]
    exact le_total _ _
  have hsorted := List.sorted_mergeSort htrans htotal l
  have hperm := List.mergeSort_perm l (fun a b : Sector => decide (a.change_pct ≤ b.change_pct))
  have hdistS : (l.mergeSort (fun a b : Sector => decide (a.change_pct ≤ b.change_pct))).Pairwise
      (fun a b => a.change_pct ≠ b.change_pct) :=
    (hperm.pairwise_iff (fun h => Ne.symm h)).mpr hdist
  have hstrict : (l.mergeSort (fun a b : Sector => decide (a.change_pct ≤ b.change_pct))).Pairwise
      (fun a b => a.change_pct < b.change_pct) := by
    refine (hsorted.and hdistS).imp ?_
    intro a b hab
    have h1 : a.change_pct ≤ b.change_pct := by
      have := hab.1
      simpa using this
    exact lt_of_le_of_ne h1 hab.2
  have hsplit : l.mergeSort (fun a b : Sector => decide (a.change_pct ≤ b.change_pct)) =
      nsmallest5 l ++ (l.mergeSort (fun a b : Sector => decide (a.change_pct ≤ b.change_pct))).drop 5 := by
    rw [nsmallest5]
    exact (List.take_append_drop 5 _).symm
  refine ⟨?_, ?_, ⟨(l.mergeSort (fun a b : Sector => decide (a.change_pct ≤ b.change_pct))).drop 5, ?_, ?_⟩⟩
  · rw [nsmallest5, List.length_take, List.length_mergeSort]
    omega
  · exact hstrict.sublist (by rw [nsmallest5]; exact List.take_sublist _ _)
  · rw [← hsplit]
    exact hperm.symm
  · exact (List.pairwise_append.mp (hsplit ▸ hstrict)).2.2

/-- C9: for a sector table whose (numeric) rows number at least 7 and carry pairwise
distinct change_pct values, the assembled `top_sectors` is exactly the 5 rows of
highest change_pct in strictly descending order, and `bottom_sectors` exactly the 5
rows of lowest change_pct in strictly ascending order: each has length 5, is strictly
sorted, and splits the row multiset into the taken 5 and a remainder every element of
which is strictly worse (resp. better).  (With ties, the embedded `nlargest5` /
`nsmallest5` use a stable sort, matching pandas `keep='first'` provider-order
tie-breaking; under the distinctness hypothesis ties are absent.) -/
theorem sector_ranking_ordering (o : MarketOverview) (t : SectorTable)
    (hcol : t.hasChangeCol = true)
    (h7 : 7 ≤ (dropnaSectors t.rows).length)
    (hdist : (dropnaSectors t.rows).Pairwise (fun a b => a.change_pct ≠ b.change_pct)) :
    (getSectorRankings o (some t)).top_sectors = nlargest5 (dropnaSectors t.rows) ∧
    (getSectorRankings o (some t)).bottom_sectors = nsmallest5 (dropnaSectors t.rows) ∧
    ((getSectorRankings o (some t)).top_sectors.length = 5 ∧
      (getSectorRankings o (some t)).top_sectors.Pairwise
        (fun a b => b.change_pct < a.change_pct) ∧
      ∃ rest, (dropnaSectors t.rows).Perm ((getSectorRankings o (some t)).top_sectors ++ rest) ∧
        ∀ x ∈ (getSectorRankings o (some t)).top_sectors, ∀ y ∈ rest,
          y.change_pct < x.change_pct) ∧
    ((getSectorRankings o (some t)).bottom_sectors.length = 5 ∧
      (getSectorRankings o (some t)).bottom_sectors.Pairwise
        (fun a b => a.change_pct < b.change_pct) ∧
      ∃ rest, (dropnaSectors t.rows).Perm ((getSectorRankings o (some t)).bottom_sectors ++ rest) ∧
        ∀ x ∈ (getSectorRankings o (some t)).bottom_sectors, ∀ y ∈ rest,
          x.change_pct < y.change_pct) := by
  have hne : t.rows.isEmpty = false := by
    cases hrows : t.rows with
    | nil =>
      rw [hrows] at h7
      simp [dropnaSectors] at h7
    | cons r rest => simp [hrows]
  have htop : (getSectorRankings o (some t)).top_sectors = nlargest5 (dropnaSectors t.rows) := by
    simp [getSectorRankings, hne, hcol]
  have hbot : (getSectorRankings o (some t)).bottom_sectors = nsmallest5 (dropnaSectors t.rows) := by
    simp [getSectorRankings, hne, hcol]
  rw [htop, hbot]
  exact ⟨rfl, rfl, nlargest5_spec _ (by omega) hdist, nsmallest5_spec _ (by omega) hdist⟩

/-- Seven sector rows with distinct change_pct values, for the C9 witness. -/
def sectorTableW : SectorTable :=
  { rows := [⟨"半导体", some 4⟩, ⟨"银行", some (-1)⟩, ⟨"券商", some 2⟩,
             ⟨"地产", some (-3)⟩, ⟨"医药", some 1⟩, ⟨"汽车", some 6⟩,
             ⟨"煤炭", some 0⟩] }

/-- Witness for C9 at a concrete 7-row table. -/
theorem sector_ranking_ordering_witness :
    (sectorTableW.hasChangeCol = true ∧ 7 ≤ (dropnaSectors sectorTableW.rows).length ∧
      (dropnaSectors sectorTableW.rows).Pairwise (fun a b => a.change_pct ≠ b.change_pct)) ∧
    ((getSectorRankings { date := "" } (some sectorTableW)).top_sectors =
        nlargest5 (dropnaSectors sectorTableW.rows) ∧
      (getSectorRankings { date := "" } (some sectorTableW)).bottom_sectors =
        nsmallest5 (dropnaSectors sectorTableW.rows) ∧
      ((getSectorRankings { date := "" } (some sectorTableW)).top_sectors.length = 5 ∧
        (getSectorRankings { date := "" } (some sectorTableW)).top_sectors.Pairwise
          (fun a b => b.change_pct < a.change_pct) ∧
        ∃ rest, (dropnaSectors sectorTableW.rows).Perm
            ((getSectorRankings { date := "" } (some sectorTableW)).top_sectors ++ rest) ∧
          ∀ x ∈ (getSectorRankings { date := "" } (some sectorTableW)).top_sectors, ∀ y ∈ rest,
            y.change_pct < x.change_pct) ∧
      ((getSectorRankings { date := "" } (some sectorTableW)).bottom_sectors.length = 5 ∧
        (getSectorRankings { date := "" } (some sectorTableW)).bottom_sectors.Pairwise
          (fun a b => a.change_pct < b.change_pct) ∧
        ∃ rest, (dropnaSectors sectorTableW.rows).Perm
            ((getSectorRankings { date := "" } (some sectorTableW)).bottom_sectors ++ rest) ∧
          ∀ x ∈ (getSectorRankings { date := "" } (some sectorTableW)).bottom_sectors, ∀ y ∈ rest,
            x.change_pct < y.change_pct)) :=
  ⟨⟨rfl, by norm_num [dropnaSectors, sectorTableW, List.filterMap_cons],
      by norm_num [dropnaSectors, sectorTableW, List.filterMap_cons, List.pairwise_cons]⟩,
    sector_ranking_ordering { date := "" } sectorTableW rfl
      (by norm_num [dropnaSectors, sectorTableW, List.filterMap_cons])
      (by norm_num [dropnaSectors, sectorTableW, List.filterMap_cons, List.pairwise_cons])⟩

/-! ## Claim C5 -/

theorem getMarketStatistics_sectors (o : MarketOverview) (df : Option StockTable) :
    (getMarketStatistics o df).top_sectors = o.top_sectors ∧
    (getMarketStatistics o df).bottom_sectors = o.bottom_sectors ∧
    (getMarketStatistics o df).indices = o.indices ∧
    (getMarketStatistics o df).date = o.date := by
  rcases df with _ | t
  · exact ⟨rfl, rfl, rfl, rfl⟩
  · simp only [getMarketStatistics]
    by_cases h1 : t.rows.isEmpty = true <;> by_cases h2 : t.hasChangeCol = true <;>
      by_cases h3 : t.hasAmountCol = true <;> simp [h1, h2, h3]

theorem retryValue_of_alwaysRaises {E A : Type} (fn : Nat → Except E A) (attempts : Nat)
    (h : alwaysRaises fn) : retryValue fn attempts = none := by
  have hres := (akshareLoop_fail fn attempts (List.range' 1 attempts) none
    (fun k _ => h k)).2
  simp only [retryValue, callAkshareWithRetry, hres]

/-- C5: when the sector-ranking fetch fails on every attempt but the index-quote
fetch succeeds (the retry wrapper hands `_get_main_indices` a dataframe `rows`),
`get_market_overview` returns normally: the result is exactly the overview produced
by the index and statistics steps (the sector step leaves it untouched), its
`indices` are built from the fetched rows, and `top_sectors` / `bottom_sectors` are
the empty lists. -/
theorem partial_failure_isolation {E₁ E₂ E₃ : Type} (today : String)
    (idxFetch : Nat → Except E₁ (List SinaRow)) (statFetch : Nat → Except E₂ StockTable)
    (sectorFetch : Nat → Except E₃ SectorTable) (rows : List SinaRow)
    (hidx : retryValue idxFetch 9 = some rows)
    (hsec : alwaysRaises sectorFetch) :
    getMarketOverview today idxFetch statFetch sectorFetch =
      getMarketStatistics { date := today, indices := getMainIndices (some rows) }
        (retryValue statFetch 9) ∧
    (getMarketOverview today idxFetch statFetch sectorFetch).indices =
      getMainIndices (some rows) ∧
    (getMarketOverview today idxFetch statFetch sectorFetch).top_sectors = [] ∧
    (getMarketOverview today idxFetch statFetch sectorFetch).bottom_sectors = [] := by
  have hs := retryValue_of_alwaysRaises sectorFetch 9 hsec
  have hmain : getMarketOverview today idxFetch statFetch sectorFetch =
      getMarketStatistics { date := today, indices := getMainIndices (some rows) }
        (retryValue statFetch 9) := by
    simp only [getMarketOverview, hidx, hs]
    rfl
  have hsect := getMarketStatistics_sectors
    { date := today, indices := getMainIndices (some rows) } (retryValue statFetch 9)
  rw [hmain]
  exact ⟨rfl, hsect.2.2.1, hsect.1, hsect.2.1⟩

/-- Concrete index row, fetch functions (index succeeds, statistics and sectors raise
on every attempt) for the C5 witness. -/
def idxRowW : SinaRow := { code := "sh000001", fields := fun _ => none }

def idxFetchW : Nat → Except Unit (List SinaRow) := fun _ => Except.ok [idxRowW]

def statFetchW : Nat → Except Unit StockTable := fun _ => Except.error ()

def sectorFetchW : Nat → Except Unit SectorTable := fun _ => Except.error ()

/-- Witness for C5 at the concrete fetchers. -/
theorem partial_failure_isolation_witness :
    (retryValue idxFetchW 9 = some [idxRowW] ∧ alwaysRaises sectorFetchW) ∧
    (getMarketOverview "2026-01-01" idxFetchW statFetchW sectorFetchW =
        getMarketStatistics { date := "2026-01-01", indices := getMainIndices (some [idxRowW]) }
          (retryValue statFetchW 9) ∧
      (getMarketOverview "2026-01-01" idxFetchW statFetchW sectorFetchW).indices =
        getMainIndices (some [idxRowW]) ∧
      (getMarketOverview "2026-01-01" idxFetchW statFetchW sectorFetchW).top_sectors = [] ∧
      (getMarketOverview "2026-01-01" idxFetchW statFetchW sectorFetchW).bottom_sectors = []) :=
  ⟨⟨rfl, fun _ => ⟨(), rfl⟩⟩,
    partial_failure_isolation "2026-01-01" idxFetchW statFetchW sectorFetchW [idxRowW]
      rfl (fun _ => ⟨(), rfl⟩)⟩

/-! ## `GeminiAnalyzer.__init__` provider failover (`analyzer.py`)

```python
def __init__(self, api_key=None):
    ...
    gemini_key_valid = self._api_key and not self._api_key.startswith('your_') and len(self._api_key) > 10
    if gemini_key_valid:
        try:
            self._init_model()
        except Exception as e:
            self._init_openai_fallback()
    else:
        self._init_openai_fallback()
```

`_init_model`'s entire body sits inside one `try/except` whose handler sets
`self._model = None` and returns; `_init_openai_fallback` likewise returns normally
on every failure.  External effects (library imports, model/client constructors) are
modelled as `Except Unit Unit` outcomes supplied in an environment record. -/

/-- Configuration and external-outcome environment for one `GeminiAnalyzer()`
construction. -/
structure InitEnv where
  gemini_api_key : Option String
  openai_api_key : Option String
  gemini_model : String
  gemini_model_fallback : String
  openai_model : String
  genaiImport : Except Unit Unit
  primaryModelInit : Except Unit Unit
  fallbackModelInit : Except Unit Unit
  openaiImport : Except Unit Unit
  openaiClientInit : Except Unit Unit

/-- The analyzer's provider-selection state after `__init__`
(`_model` holds the active Gemini model name when set, `_openai_client` whether the
OpenAI client object was created). -/
structure AnalyzerState where
  _model : Option String := none
  _current_model_name : Option String := none
  _using_fallback : Bool := false
  _use_openai : Bool := false
  _openai_client : Bool := false

/-- `key and not key.startswith('your_') and len(key) > 10`
(`None` and `""` are falsy; `startswith` is a character-prefix test and `len` the
character count). -/
def keyValid (key : Option String) : Bool :=
  match key with
  | none => false
  | some s => !(s == "") && !(List.isPrefixOf "your_".data s.data) && decide (s.length > 10)

/-- Embeds `_init_model`: the whole body is inside `try/except`, so this function
never raises; on import/configure failure, or failure of both model constructors, it
sets `_model = None` and returns normally. -/
def initModel (env : InitEnv) (st : AnalyzerState) : AnalyzerState :=
  match env.genaiImport with
  | .error _ => { st with _model := none }
  | .ok _ =>
    match env.primaryModelInit with
    | .ok _ =>
      { st with _model := some env.gemini_model,
                _current_model_name := some env.gemini_model,
                _using_fallback := false }
    | .error _ =>
      match env.fallbackModelInit with
      | .ok _ =>
        { st with _model := some env.gemini_model_fallback,
                  _current_model_name := some env.gemini_model_fallback,
                  _using_fallback := true }
      | .error _ => { st with _model := none }

/-- Embeds `_init_openai_fallback`: returns without change on an invalid key, a
failed `openai` import, or a failed client construction; otherwise records the
client and switches to the OpenAI API shape. -/
def initOpenaiFallback (env : InitEnv) (st : AnalyzerState) : AnalyzerState :=
  if !(keyValid env.openai_api_key) then st
  else
    match env.openaiImport with
    | .error _ => st
    | .ok _ =>
      match env.openaiClientInit with
      | .ok _ =>
        { st with _openai_client := true,
                  _current_model_name := some env.openai_model,
                  _use_openai := true }
      | .error _ => st

/-- Embeds `GeminiAnalyzer.__init__`.  Because `initModel` (like `_init_model`)
never raises, the `except` branch of `__init__` — the only call of
`_init_openai_fallback` on the valid-Gemini-key path — is unreachable, and the
embedding's valid-key path is `initModel` alone, exactly as the source behaves. -/
def geminiAnalyzerInit (env : InitEnv) : AnalyzerState :=
  if keyValid env.gemini_api_key then initModel env {}
  else initOpenaiFallback env {}

/-- Embeds `is_available`:
`self._model is not None or self._openai_client is not None`. -/
def is_available (st : AnalyzerState) : Bool :=
  st._model.isSome || st._openai_client

/-! ## Claim C7 -/

/-- A construction environment with a valid Gemini key whose two Gemini model
constructors both fail, and a valid, fully working OpenAI-compatible
configuration. -/
def envBothGeminiModelsFail : InitEnv :=
  { gemini_api_key := some "AIzaSyDummyKey123"
    openai_api_key := some "sk-validkey12345"
    gemini_model := "gemini-2.5-flash"
    gemini_model_fallback := "gemini-2.0-flash"
    openai_model := "deepseek-chat"
    genaiImport := .ok ()
    primaryModelInit := .error ()
    fallbackModelInit := .error ()
    openaiImport := .ok ()
    openaiClientInit := .ok () }

/-- C7 (code bug): with a valid Gemini key, failing primary and fallback Gemini
model initialisation, and a valid working OpenAI-compatible configuration, the
constructor ends `UNAVAILABLE` without ever trying the alternate provider — even
though running `_init_openai_fallback` on the resulting state would have made the
analyzer available.  `_init_model` swallows every exception, so `__init__`'s
`except: self._init_openai_fallback()` branch is dead code. -/
theorem provider_failover_skips_alternate :
    keyValid envBothGeminiModelsFail.gemini_api_key = true ∧
    keyValid envBothGeminiModelsFail.openai_api_key = true ∧
    (geminiAnalyzerInit envBothGeminiModelsFail)._model = none ∧
    (geminiAnalyzerInit envBothGeminiModelsFail)._openai_client = false ∧
    is_available (geminiAnalyzerInit envBothGeminiModelsFail) = false ∧
    is_available
      (initOpenaiFallback envBothGeminiModelsFail
        (geminiAnalyzerInit envBothGeminiModelsFail)) = true :=
  ⟨rfl, rfl, rfl, rfl, rfl, rfl⟩

/-! ## `MarketAnalyzer._generate_template_review` (live module) -/

/-- A news item (title/snippet) as returned by the search collaborator; the template
generators receive the list but never read it. -/
structure NewsItem where
  title : String := ""
  snippet : String := ""

/-- Zero-pad a digit string on the left to width `w`. -/
def padZeros (s : String) (w : Nat) : String :=
  String.mk (List.replicate (w - s.length) '0') ++ s

/-- Python's fixed-point interpolation `f"{q:.<prec>f}"`, over the exact rational
value, rounding to the nearest multiple of `10^(-prec)` (no claim depends on the
digits produced, only on the string being a function of `q` alone). -/
def formatFixed (prec : Nat) (q : ℚ) : String :=
  let scaled : ℤ := round (q * (10 : ℚ) ^ prec)
  let sign := if scaled < 0 then "-" else ""
  if prec = 0 then sign ++ toString scaled.natAbs
  else
    sign ++ toString (scaled.natAbs / 10 ^ prec) ++ "." ++
      padZeros (toString (scaled.natAbs % 10 ^ prec)) prec

/-- `f"{q:+.2f}"`: `formatFixed 2` with an explicit plus sign on non-negative
values. -/
def formatSigned2 (q : ℚ) : String :=
  if round (q * 100) < 0 then formatFixed 2 q else "+" ++ formatFixed 2 q

/-- The ↑, ↓ or - marker chosen from the sign of a change percentage. -/
def direction (pct : ℚ) : String :=
  if pct > 0 then "↑" else if pct < 0 then "↓" else "-"

/-- One line of the 主要指数 block:
`f"- **{idx.name}**: {idx.current:.2f} ({direction}{abs(idx.change_pct):.2f}%)\n"`. -/
def indexLine (idx : MarketIndex) : String :=
  "- **" ++ idx.name ++ "**: " ++ formatFixed 2 idx.current ++ " (" ++
    direction idx.change_pct ++ formatFixed 2 |idx.change_pct| ++ "%)\n"

/-- The `indices_text` accumulation over `overview.indices[:4]`. -/
def indicesText (ov : MarketOverview) : String :=
  (ov.indices.take 4).foldl (fun acc idx => acc ++ indexLine idx) ""

/-- The market-mood classifier of `_generate_template_review`:
`next((idx for idx in overview.indices if idx.code == '000001'), None)` followed by
the change_pct thresholds, with 震荡整理 when no index matches. -/
def marketMood (ov : MarketOverview) : String :=
  match ov.indices.find? (fun idx => idx.code == "000001") with
  | some sh =>
    if sh.change_pct > 1 then "强势上涨"
    else if sh.change_pct > 0 then "小幅上涨"
    else if sh.change_pct > -1 then "小幅下跌"
    else "明显下跌"
  | none => "震荡整理"

/-- `"、".join([s['name'] for s in sectors[:3]])`. -/
def sectorNames3 (sectors : List Sector) : String :=
  String.intercalate "、" ((sectors.take 3).map (fun s => s.name))

/-- The template report up to and including the literal `*复盘时间: ` that precedes
the clock interpolation — everything of the source f-string except the trailing
`{datetime.now().strftime('%H:%M')}*\n`. -/
def templateReviewBody (ov : MarketOverview) : String :=
  "## 📊 " ++ ov.date ++ " 大盘复盘\n\n### 一、市场总结\n今日A股市场整体呈现**" ++
    marketMood ov ++
    "**态势。\n\n### 二、主要指数\n" ++ indicesText ov ++
    "\n\n### 三、涨跌统计\n| 指标 | 数值 |\n|------|------|\n| 上涨家数 | " ++
    toString ov.up_count ++ " |\n| 下跌家数 | " ++ toString ov.down_count ++
    " |\n| 涨停 | " ++ toString ov.limit_up_count ++ " |\n| 跌停 | " ++
    toString ov.limit_down_count ++ " |\n| 两市成交额 | " ++
    formatFixed 0 ov.total_amount ++ "亿 |\n| 北向资金 | " ++
    formatSigned2 ov.north_flow ++
    "亿 |\n\n### 四、板块表现\n- **领涨**: " ++ sectorNames3 ov.top_sectors ++
    "\n- **领跌**: " ++ sectorNames3 ov.bottom_sectors ++
    "\n\n### 五、风险提示\n市场有风险，投资需谨慎。以上数据仅供参考，不构成投资建议。\n\n---\n*复盘时间: "

/-- Embeds `_generate_template_review` of the live module.  The wall-clock reading
`datetime.now().strftime('%H:%M')` interpolated into the footer is the explicit
parameter `now` — the only input of this otherwise pure function besides the
overview (the `news` parameter is accepted and never read, as in the source). -/
def generateTemplateReview (ov : MarketOverview) (news : List NewsItem)
    (now : String) : String :=
  templateReviewBody ov ++ now ++ "*\n"

/-! ## The stale root-level template body (`market_analyzer.py` lines 504-540) -/

/-- The mood classifier of the legacy template body. -/
def legacyMood (ov : MarketOverview) : String :=
  if ov.limit_up_count > 60 ∧ ov.limit_down_count < 5 then "情绪亢奋，满仓猛干"
  else if ov.limit_down_count > 15 then "核按钮频现，退潮预警"
  else if ov.total_amount < 8000 then "存量博弈，只有局部龙头能活"
  else "混沌震荡，只看核心辨识度"

/-- `", ".join([s['name'] for s in sectors[:2]])`. -/
def sectorNames2 (sectors : List Sector) : String :=
  String.intercalate ", " ((sectors.take 2).map (fun s => s.name))

/-- Embeds the `_generate_template_review` body carried by the stale root-level
`market_analyzer.py` (where the `def` is dedented to module level, leaving the file
unimportable).  Unlike the live template it reads no clock: it is a pure function of
the overview (the `news` parameter is again never read). -/
def generateTemplateReviewLegacy (ov : MarketOverview) (news : List NewsItem) :
    String :=
  "# 🐉 " ++ ov.date ++ " 小群复盘 (模板版)\n\n### 一、情绪定位\n**当前状态**：" ++
    legacyMood ov ++ "\n两市成交量 **" ++ formatFixed 0 ov.total_amount ++
    "亿**。没量就没审美，这种行情只适合在绝对龙头上抱团。\n\n### 二、龙虎榜数据\n- **上涨**: " ++
    toString ov.up_count ++ " | **下跌**: " ++ toString ov.down_count ++
    "\n- **涨停/高度**: " ++ toString ov.limit_up_count ++ "家 | **跌停/大面**: " ++
    toString ov.limit_down_count ++ "家\n- **结论**: " ++
    (if ov.up_count > ov.down_count then "赚钱效应回暖，资金在试错新方向"
     else "面效应扩散，杂毛票不要碰") ++
    "\n\n### 三、领涨板块点睛\n- **核心逻辑**: " ++ sectorNames2 ov.top_sectors ++
    "。\n- **点评**: 这里面只有带头的大哥有辨识度，其他的都是跟随者，切忌追高跟风票。\n\n" ++
    "### 四、明日纪律\n1. **只做龙头**：不去碰没地位的票。\n2. **严防核按钮**：如果高标明天不能超预期开盘，直接兑现。\n" ++
    "3. **空仓也是战斗**：看不懂的时候，守住本金就是赢。\n\n---\n*复盘席位：中国银河大连黄河路*\n"

/-! ## `MarketAnalyzer.generate_market_review` -/

/-- The `self.analyzer` handle as `generate_market_review` consumes it: whether
`is_available()` holds, which API flavour is active, and the outcome of the one
provider call the method makes.  `.error` models the call raising, `.ok none` a falsy
response/text, `.ok (some s)` a returned text `s` (for the Gemini flavour `s` is the
raw `response.text`, to which the source applies `.strip()`). -/
structure AnalyzerHandle where
  available : Bool
  use_openai : Bool
  callOutcome : Except Unit (Option String)

/-- Embeds `generate_market_review`: absent or unavailable analyzer → template; any
exception from the provider call → template; empty/`None` review → template;
otherwise the provider text.  (The prompt built by `_build_review_prompt` is passed
to the provider, whose reply is modelled as the input `callOutcome`; the prompt
string therefore does not influence the result and is not materialised.  Prompt
construction itself is effect-safe: `get_margin_data` catches all its errors and
returns a string.) -/
def generateMarketReview (analyzer : Option AnalyzerHandle) (ov : MarketOverview)
    (news : List NewsItem) (now : String) : String :=
  match analyzer with
  | none => generateTemplateReview ov news now
  | some a =>
    if !a.available then generateTemplateReview ov news now
    else
      match a.callOutcome with
      | .error _ => generateTemplateReview ov news now
      | .ok none => generateTemplateReview ov news now
      | .ok (some s) =>
        let review := if a.use_openai then s else s.trim
        if review == "" then generateTemplateReview ov news now else review

/-! ## Claim C1 -/

theorem templateReview_ne_empty (ov : MarketOverview) (news : List NewsItem)
    (now : String) : generateTemplateReview ov news now ≠ "" := by
  intro h
  have hlen := congrArg String.length h
  simp only [generateTemplateReview, templateReviewBody, String.length_append] at hlen
  have h0 : ("## 📊 " : String).length = 5 := by decide
  have hE : ("" : String).length = 0 := rfl
  rw [h0, hE] at hlen
  omega

/-- C1: `generate_market_review` raises nothing and never returns empty text, under
every analyzer state and every provider-failure combination (call raising, or
returning empty/`None`); with no analyzer, or an unavailable one, the result is
exactly the deterministic template review. -/
theorem generation_degrades_gracefully (ov : MarketOverview) (news : List NewsItem)
    (now : String) (analyzer : Option AnalyzerHandle) (useOpenai : Bool)
    (outcome : Except Unit (Option String)) :
    generateMarketReview analyzer ov news now ≠ "" ∧
    generateMarketReview none ov news now = generateTemplateReview ov news now ∧
    generateMarketReview (some ⟨false, useOpenai, outcome⟩) ov news now =
      generateTemplateReview ov news now := by
  refine ⟨?_, rfl, rfl⟩
  rcases analyzer with _ | a
  · exact templateReview_ne_empty ov news now
  · simp only [generateMarketReview]
    by_cases hav : a.available
    · simp only [hav, Bool.not_true, Bool.false_eq_true, if_false]
      rcases a.callOutcome with _ | v
      · exact templateReview_ne_empty ov news now
      · rcases v with _ | s
        · exact templateReview_ne_empty ov news now
        · by_cases hrev : ((if a.use_openai then s else s.trim) == "") = true
          · simp only [hrev, if_true]
            exact templateReview_ne_empty ov news now
          · have hrev' : ((if a.use_openai then s else s.trim) == "") = false := by
              simpa using hrev
            simp only [hrev', Bool.false_eq_true, if_false]
            intro h
            rw [h] at hrev'
            simp at hrev' 
    · simp only [Bool.not_eq_true] at hav
      simp only [hav, Bool.not_false, if_true]
      exact templateReview_ne_empty ov news now

/-! ## Claim C6 -/

/-- A snapshot for the determinism counterexample (field values are irrelevant: the
two reports differ only in the clock). -/
def ovW : MarketOverview := { date := "2026-01-01" }

/-- C6 counterexample: two calls of the live template generator with the identical
snapshot and news, one minute apart, produce different bytes — the footer
interpolates `datetime.now().strftime('%H:%M')`, so the generator is not a function
of the snapshot and news alone. -/
theorem fallback_determinism_cex :
    generateTemplateReview ovW [] "10:00" ≠ generateTemplateReview ovW [] "10:01" := by
  intro h
  have hd := congrArg String.data h
  simp only [generateTemplateReview, String.data_append] at hd
  have h1 := List.append_inj_left' hd rfl
  have h2 := List.append_inj_right h1 rfl
  exact absurd h2 (by decide)

/-- C6 amended: the live template generator is deterministic in the snapshot and the
current wall-clock minute and in nothing else — the news argument is never read, and
the clock enters only as the trailing `复盘时间` footer, so two calls with identical
snapshot and identical clock reading are byte-identical; the legacy root-level
template body reads no clock and is a pure function of the snapshot alone. -/
theorem fallback_determinism (ov : MarketOverview) (n₁ n₂ : List NewsItem)
    (now : String) :
    generateTemplateReview ov n₁ now = generateTemplateReview ov n₂ now ∧
    (∃ body : String, ∀ (news : List NewsItem) (t : String),
      generateTemplateReview ov news t = body ++ t ++ "*\n") ∧
    generateTemplateReviewLegacy ov n₁ = generateTemplateReviewLegacy ov n₂ :=
  ⟨rfl, ⟨templateReviewBody ov, fun _ _ => rfl⟩, rfl⟩

/-! ## Claim C10 -/

theorem buildMarketIndex_code (code name : String) (r : SinaRow) :
    (buildMarketIndex code name r).code = code := by
  simp only [buildMarketIndex]
  split <;> rfl

theorem getMainIndices_code_mem (df : Option (List SinaRow)) :
    ∀ idx ∈ getMainIndices df, idx.code ∈ MAIN_INDICES.map Prod.fst := by
  intro idx hidx
  rcases df with _ | rows
  · simp [getMainIndices] at hidx
  · simp only [getMainIndices] at hidx
    by_cases hrows : rows.isEmpty = true
    · simp [hrows] at hidx
    · simp only [hrows, Bool.false_eq_true, if_false] at hidx
      obtain ⟨p, hp, hmap⟩ := List.mem_filterMap.mp hidx
      rcases hfind : findIndexRow rows p.1 with _ | r
      · rw [hfind] at hmap
        simp at hmap
      · rw [hfind] at hmap
        have heq : buildMarketIndex p.1 p.2 r = idx := by simpa using hmap
        rw [← heq, buildMarketIndex_code]
        exact List.mem_map_of_mem Prod.fst hp

/-- C10: when the overview's indices were produced by the index-fetch step (so every
code is a `MAIN_INDICES` key such as `'sh000001'`), the template's Shanghai-index
lookup `idx.code == '000001'` finds nothing, the market mood is the neutral
震荡整理 whatever the index did, and the generated report states that mood. -/
theorem template_mood_always_neutral (ov : MarketOverview) (news : List NewsItem)
    (now : String) (df : Option (List SinaRow))
    (hov : ov.indices = getMainIndices df) :
    ov.indices.find? (fun idx => idx.code == "000001") = none ∧
    marketMood ov = "震荡整理" ∧
    ∃ p q, generateTemplateReview ov news now = p ++ "震荡整理" ++ q := by
  have hfind : ov.indices.find? (fun idx => idx.code == "000001") = none := by
    rw [List.find?_eq_none]
    intro idx hidx
    have hmem := getMainIndices_code_mem df idx (hov ▸ hidx)
    simp only [MAIN_INDICES, List.map_cons, List.map_nil, List.mem_cons,
      List.not_mem_nil, or_false] at hmem
    rcases hmem with h | h | h | h | h | h <;> rw [h] <;> decide
  have hmood : marketMood ov = "震荡整理" := by
    rw [marketMood, hfind]
  refine ⟨hfind, hmood, ?_⟩
  refine ⟨"## 📊 " ++ ov.date ++ " 大盘复盘\n\n### 一、市场总结\n今日A股市场整体呈现**",
    "**态势。\n\n### 二、主要指数\n" ++ indicesText ov ++
      "\n\n### 三、涨跌统计\n| 指标 | 数值 |\n|------|------|\n| 上涨家数 | " ++
      toString ov.up_count ++ " |\n| 下跌家数 | " ++ toString ov.down_count ++
      " |\n| 涨停 | " ++ toString ov.limit_up_count ++ " |\n| 跌停 | " ++
      toString ov.limit_down_count ++ " |\n| 两市成交额 | " ++
      formatFixed 0 ov.total_amount ++ "亿 |\n| 北向资金 | " ++
      formatSigned2 ov.north_flow ++
      "亿 |\n\n### 四、板块表现\n- **领涨**: " ++ sectorNames3 ov.top_sectors ++
      "\n- **领跌**: " ++ sectorNames3 ov.bottom_sectors ++
      "\n\n### 五、风险提示\n市场有风险，投资需谨慎。以上数据仅供参考，不构成投资建议。\n\n---\n*复盘时间: " ++
      now ++ "*\n", ?_⟩
  simp only [generateTemplateReview, templateReviewBody, hmood, String.append_assoc]

/-- The overview whose indices come from the fetch step applied to a one-row
dataframe, for the C10 witness. -/
def ovC10 : MarketOverview :=
  { date := "2026-01-01", indices := getMainIndices (some [idxRowW]) }

/-- Witness for C10: the hypothesis holds by construction of `ovC10`, and the
conclusions follow at the concrete input. -/
theorem template_mood_always_neutral_witness :
    ovC10.indices = getMainIndices (some [idxRowW]) ∧
    (ovC10.indices.find? (fun idx => idx.code == "000001") = none ∧
      marketMood ovC10 = "震荡整理" ∧
      ∃ p q, generateTemplateReview ovC10 [] "15:30" = p ++ "震荡整理" ++ q) :=
  ⟨rfl, template_mood_always_neutral ovC10 [] "15:30" (some [idxRowW]) rfl⟩

end DailyAnalysis
